import Mathlib

/-!
# Verification of the Siglent screen-capture protocol engine

Shallow embedding of `src/siglent/screen_capture.py` (class `ScreenCapture`):
format normalization, the SCDP definite-length-block decoder (Method A), the
HCSU print-and-query fallback (Method B), the capture orchestrator, and the
filename-based format inference of `save_screenshot`.

Bytes are modelled as `Nat` (values 0..255 on real wires; nothing below needs
the upper bound). `read_raw(n)` on a transport that has a byte stream pending
is modelled as taking the first `n` available bytes of the stream — fewer when
the stream is exhausted, matching a transport-timeout short read.

Python exceptions are modelled by the `PyExc` sum type, one constructor per
exception class the source can raise on these paths. The spec's design-level
error kinds map onto them as follows: `UnsupportedFormat` is the `ValueError`
raised by format validation, `ProtocolError` is the bare `Exception` raised
inside the two capture methods, and `CaptureFailed` is the terminal
`RuntimeError` raised by `capture_screenshot`.
-/

namespace SiglentCapture

/-- Python exception values relevant to the capture paths, carrying the
message string built by the source. -/
inductive PyExc where
  | valueError (msg : String)
  | exception (msg : String)
  | runtimeError (msg : String)
  | indexError (msg : String)
  deriving Repr, DecidableEq

/-- One operation issued on the borrowed transport handle: `scope.write`,
`scope.query`, or `connection.read_raw`. The `read_raw` count is an `Int`
because the source passes `int(...)` values straight through, and Python's
`int` can be negative. Settling sleeps touch no wire and are not
recorded. -/
inductive WireOp where
  | write (cmd : String)
  | query (cmd : String)
  | readRaw (n : Int)
  deriving Repr, DecidableEq

/-- The value of an ASCII decimal digit byte, `none` for any other byte.
Models Python's `int(chr(b))` for a single byte `b`: only the bytes 48..57
(`'0'..'9'`) parse; every other byte in 0..255 makes `int` raise
`ValueError`. -/
def digitVal? (b : Nat) : Option Nat :=
  if 48 ≤ b ∧ b ≤ 57 then some (b - 48) else none

/-- The ASCII bytes Python's `int` strips around a numeral: tab (9) through
carriage return (13) and space (32). -/
def isPySpace (b : Nat) : Bool :=
  b == 9 || b == 10 || b == 11 || b == 12 || b == 13 || b == 32

/-- The tail of a numeral after its first digit: further digits, with a
single underscore (byte 95) permitted only between two digits. Accumulates
the decimal value. -/
def pyDigitsAux : List Nat → Nat → Option Nat
  | [], acc => some acc
  | 95 :: b :: rest, acc =>
    match digitVal? b with
    | some d => pyDigitsAux rest (acc * 10 + d)
    | none => none
  | 95 :: [], _ => none
  | b :: rest, acc =>
    match digitVal? b with
    | some d => pyDigitsAux rest (acc * 10 + d)
    | none => none

/-- A numeral body: at least one digit, then digits with single underscores
between digits. -/
def pyDigits? : List Nat → Option Nat
  | [] => none
  | b :: rest =>
    match digitVal? b with
    | some d => pyDigitsAux rest d
    | none => none

/-- Models `int(bs.decode('ascii'))` on the length-field bytes read from the
wire. A byte 128 or above makes `decode('ascii')` raise
`UnicodeDecodeError` (a `ValueError` subclass); otherwise Python's `int`
accepts surrounding ASCII whitespace, one optional `+` (43) or `-` (45)
sign, and a nonempty digit run with single underscores between digits —
`int("+5") = 5`, `int(" 5_0 ") = 50` — and raises `ValueError` on anything
else. Both failure modes are folded into `none`. -/
def pyInt? (l : List Nat) : Option Int :=
  if l.any (fun b => decide (128 ≤ b)) then none
  else
    let l1 := ((l.dropWhile isPySpace).reverse.dropWhile isPySpace).reverse
    match l1 with
    | 43 :: rest => (pyDigits? rest).map (fun n => (n : Int))
    | 45 :: rest => (pyDigits? rest).map (fun n => -(n : Int))
    | _ => (pyDigits? l1).map (fun n => (n : Int))

/-- Embeds `ScreenCapture._capture_with_scdp` run against a transport whose
pending response bytes are `stream`. Returns the method's outcome together
with the wire operations it issued, in order:

* write `"SCDP"`;
* `read_raw(2)` for the `#N` header — empty or not starting with `'#'` raises
  `Exception("Invalid response header")`; a 1-byte header makes `header[1]`
  raise `IndexError`; a non-digit `N` makes `int(chr(...))` raise
  `ValueError`; `N == 0` raises `Exception("Invalid length format")`;
* `read_raw(N)` for the length field, decoded by `int(...decode('ascii'))`
  (modelled by `pyInt?`, so lenient forms such as `b"+5"` parse exactly as
  Python parses them);
* `read_raw(L)` for the payload — for a negative `L` (possible via a signed
  length field) the transport is taken to deliver no bytes, so the length
  check below fails just as it must in the source, where
  `len(image_data) >= 0 > L`;
* a payload read shorter than `L` raises
  `Exception("Data length mismatch: expected L, got n")`;
* otherwise the payload is returned unchanged. -/
def scdpRun (stream : List Nat) : Except PyExc (List Nat) × List WireOp :=
  let log1 : List WireOp := [.write "SCDP", .readRaw 2]
  let header := stream.take 2
  if header.take 1 ≠ [35] then
    (Except.error (.exception "Invalid response header"), log1)
  else
    match header with
    | [] => (Except.error (.exception "Invalid response header"), log1)
    | [_] => (Except.error (.indexError "index out of range"), log1)
    | _ :: b1 :: _ =>
      match digitVal? b1 with
      | none => (Except.error (.valueError "invalid literal for int() with base 10"), log1)
      | some numDigits =>
        if numDigits = 0 then
          (Except.error (.exception "Invalid length format"), log1)
        else
          let rest := stream.drop 2
          let lengthBytes := rest.take numDigits
          let log2 := log1 ++ [.readRaw (numDigits : Int)]
          match pyInt? lengthBytes with
          | none => (Except.error (.valueError "invalid literal for int() with base 10"), log2)
          | some dataLength =>
            let imageData := (rest.drop numDigits).take dataLength.toNat
            let log3 := log2 ++ [.readRaw dataLength]
            if (imageData.length : Int) ≠ dataLength then
              (Except.error (.exception ("Data length mismatch: expected " ++
                toString dataLength ++ ", got " ++ toString imageData.length)), log3)
            else
              (Except.ok imageData, log3)

/-- The value `scope.query("HCSU?")` hands back: the transport returns either
decoded text or raw bytes (`bytes | text`, checked at runtime in the
source). -/
inductive QueryResp where
  | text (s : String)
  | binary (bs : List Nat)
  deriving Repr, DecidableEq

/-- Embeds `ScreenCapture._capture_with_hcsu`: write `"HCSU PRINT"`, sleep,
query `"HCSU?"`. A `str` response raises
`Exception("Unexpected string response: <text>")`; only a bytes response
reaches the final `return`, so the `response.encode()` half of that return is
dead code and the payload is returned unchanged. -/
def hcsuRun (resp : QueryResp) : Except PyExc (List Nat) × List WireOp :=
  let log : List WireOp := [.write "HCSU PRINT", .query "HCSU?"]
  match resp with
  | .text s => (Except.error (.exception ("Unexpected string response: " ++ s)), log)
  | .binary bs => (Except.ok bs, log)

/-- The class attribute `ScreenCapture.SUPPORTED_FORMATS`. -/
def SUPPORTED_FORMATS : List String := ["PNG", "BMP", "JPEG", "JPG"]

/-- Models Python's `str.upper()` as character-wise ASCII upper-casing.
(Python also upper-cases non-ASCII letters; no format token or filename
extension handled by this module contains any, and the protocol commands are
pure ASCII.) -/
def pyUpper (s : String) : String :=
  ⟨s.data.map Char.toUpper⟩

/-- Embeds the validation prologue of `capture_screenshot` (lines 50-57):
upper-case the token, reject anything outside `SUPPORTED_FORMATS` with
`ValueError`, then fold `"JPG"` to `"JPEG"`. -/
def normalizeFormat (image_format : String) : Except PyExc String :=
  let f := pyUpper image_format
  if f ∈ SUPPORTED_FORMATS then
    Except.ok (if f = "JPG" then "JPEG" else f)
  else
    Except.error (.valueError ("Unsupported format: " ++ f ++
      ". Supported: PNG, BMP, JPEG, JPG"))

/-- One transport behaviour for a capture call: the byte stream the
instrument emits after `SCDP`, and the value it answers to `HCSU?`. -/
structure Transport where
  scdpStream : List Nat
  hcsuResp : QueryResp

/-- Message of the terminal `RuntimeError`: the inner
`RuntimeError("Failed to capture screenshot with available methods")` is
caught by the outer handler and re-raised as
`RuntimeError(f"Failed to capture screenshot: {e}")`. -/
def captureFailMsg : String :=
  "Failed to capture screenshot: Failed to capture screenshot with available methods"

/-- The tail of `capture_screenshot` once Method A has not succeeded: try
Method B, accept a non-empty payload, otherwise raise the terminal
`RuntimeError`. `rb`/`lb` are Method B's outcome and wire log, `log` the
operations already issued. -/
def captureFallback (fmt : String) (log : List WireOp)
    (rb : Except PyExc (List Nat)) (lb : List WireOp) :
    Except PyExc (List Nat × String) × List WireOp :=
  match rb with
  | .ok b =>
    if b ≠ [] then (Except.ok (b, fmt), log ++ lb)
    else (Except.error (.runtimeError captureFailMsg), log ++ lb)
  | .error _ => (Except.error (.runtimeError captureFailMsg), log ++ lb)

/-- Embeds `ScreenCapture.capture_screenshot` against transport behaviour
`t`: validate and normalize the format (before any wire traffic), write
`HCSU DEV,FORMAT,<fmt>`, sleep, try Method A and return its payload when
non-empty, otherwise swallow its failure and fall back to Method B via
`captureFallback`. The result pairs the outcome (payload bytes with the
format used, or the exception raised) with the full ordered wire log. -/
def capture_screenshot (t : Transport) (image_format : String) :
    Except PyExc (List Nat × String) × List WireOp :=
  match normalizeFormat image_format with
  | .error e => (Except.error e, [])
  | .ok fmt =>
    let log0 : List WireOp := [.write ("HCSU DEV,FORMAT," ++ fmt)]
    let ra := scdpRun t.scdpStream
    match ra.1 with
    | .ok a =>
      if a ≠ [] then (Except.ok (a, fmt), log0 ++ ra.2)
      else
        let rb := hcsuRun t.hcsuResp
        captureFallback fmt (log0 ++ ra.2) rb.1 rb.2
    | .error _ =>
      let rb := hcsuRun t.hcsuResp
      captureFallback fmt (log0 ++ ra.2) rb.1 rb.2

/-- Index of the last occurrence of `c`, or `none`. Models `str.rfind` (which
returns `-1` for `none`). -/
def rfindIdx (c : Char) : List Char → Option Nat
  | [] => none
  | a :: rest =>
    match rfindIdx c rest with
    | some i => some (i + 1)
    | none => if a = c then some 0 else none

/-- Models `os.path.splitext(filename)[1]` on POSIX: the suffix of `filename`
from its last `'.'` onward, provided that dot lies after the last `'/'` and
the basename has at least one non-dot character before it; otherwise `""`. -/
def splitextExt (filename : String) : String :=
  let l := filename.toList
  let sepIdx : Int := match rfindIdx '/' l with | some i => (i : Int) | none => -1
  match rfindIdx '.' l with
  | some d =>
    if sepIdx < (d : Int) then
      let base := (l.take d).drop ((sepIdx + 1).toNat)
      if base.any (fun c => c ≠ '.') then String.mk (l.drop d) else ""
    else ""
  | none => ""

/-- The `format_map` literal of `save_screenshot`. -/
def format_map : List (String × String) :=
  [(".PNG", "PNG"), (".BMP", "BMP"), (".JPG", "JPEG"), (".JPEG", "JPEG")]

/-- Embeds the auto-detection branch of `save_screenshot`:
`format_map.get(os.path.splitext(filename)[1].upper(), 'PNG')`. -/
def inferFormatFromFilename (filename : String) : String :=
  let ext := pyUpper (splitextExt filename)
  match format_map.find? (fun p => p.1 == ext) with
  | some p => p.2
  | none => "PNG"

/-- Embeds `save_screenshot` up to the capture call: when `image_format` is
`None` the format is inferred from the filename extension, then
`capture_screenshot` runs with that format. (The final write of the returned
bytes to the file is plain I/O outside the protocol engine.) -/
def save_screenshot (t : Transport) (filename : String)
    (image_format : Option String) : Except PyExc (List Nat × String) × List WireOp :=
  capture_screenshot t (image_format.getD (inferFormatFromFilename filename))

/-- ASCII bytes of a string literal, for writing wire streams the way the
spec's test vectors do (`b"#18"` and the like). -/
def asciiBytes (s : String) : List Nat :=
  s.toList.map Char.toNat

/-- Whether a wire operation carries a command text (`write` or `query`), as
opposed to a raw byte read. -/
def isCmd : WireOp → Bool
  | .write _ => true
  | .query _ => true
  | .readRaw _ => false

instance {α β : Type} [DecidableEq α] [DecidableEq β] :
    DecidableEq (Except α β) := fun x y =>
  match x, y with
  | .ok a, .ok b =>
    if h : a = b then isTrue (by rw [h]) else isFalse (by simp [h])
  | .error a, .error b =>
    if h : a = b then isTrue (by rw [h]) else isFalse (by simp [h])
  | .ok _, .error _ => isFalse (by simp)
  | .error _, .ok _ => isFalse (by simp)

/-! ## Helper lemmas -/

/-- Method A issues `write "SCDP"`, the 2-byte header read, and at most two
further raw reads, whatever the stream holds. -/
theorem scdpRun_log (s : List Nat) :
    (scdpRun s).2 = [WireOp.write "SCDP", WireOp.readRaw 2] ∨
    (∃ n, (scdpRun s).2 = [WireOp.write "SCDP", WireOp.readRaw 2, WireOp.readRaw n]) ∨
    (∃ n m, (scdpRun s).2 =
      [WireOp.write "SCDP", WireOp.readRaw 2, WireOp.readRaw n, WireOp.readRaw m]) := by
  unfold scdpRun
  dsimp only
  split
  · left; rfl
  · split
    · left; rfl
    · left; rfl
    · split
      · left; rfl
      · split
        · left; rfl
        · split
          · right; left; exact ⟨_, rfl⟩
          · split
            · right; right; exact ⟨_, _, rfl⟩
            · right; right; exact ⟨_, _, rfl⟩

/-- The only command text Method A puts on the wire is `"SCDP"`. -/
theorem scdpRun_filter_isCmd (s : List Nat) :
    (scdpRun s).2.filter isCmd = [WireOp.write "SCDP"] := by
  rcases scdpRun_log s with h | ⟨n, h⟩ | ⟨n, m, h⟩ <;> rw [h] <;> rfl

/-- Method A never issues Method B's trigger or query. -/
theorem scdpRun_no_hcsu (s : List Nat) (op : WireOp) (hop : op ∈ (scdpRun s).2) :
    op ≠ WireOp.write "HCSU PRINT" ∧ op ≠ WireOp.query "HCSU?" := by
  rcases scdpRun_log s with h | ⟨n, h⟩ | ⟨n, m, h⟩ <;> rw [h] at hop <;>
    simp only [List.mem_cons, List.not_mem_nil, or_false] at hop <;>
    rcases hop with rfl | rfl | rfl | rfl <;>
    exact ⟨by first | decide | simp, by first | decide | simp⟩

/-- Method B always issues exactly its trigger write and its query. -/
theorem hcsuRun_log (r : QueryResp) :
    (hcsuRun r).2 = [WireOp.write "HCSU PRINT", WireOp.query "HCSU?"] := by
  cases r <;> rfl

/-- The fallback tail appends Method B's wire log to the operations already
issued, whatever Method B's outcome. -/
theorem captureFallback_log (fmt : String) (log : List WireOp)
    (rb : Except PyExc (List Nat)) (lb : List WireOp) :
    (captureFallback fmt log rb lb).2 = log ++ lb := by
  cases rb with
  | ok b => by_cases hb : b = [] <;> simp [captureFallback, hb]
  | error e => rfl

/-- A format that passes validation is one of the three canonical names —
never `"JPG"`, which validation folds to `"JPEG"`. -/
theorem normalizeFormat_ok (tok fmt : String)
    (hf : normalizeFormat tok = Except.ok fmt) :
    fmt = "PNG" ∨ fmt = "BMP" ∨ fmt = "JPEG" := by
  by_cases h : pyUpper tok ∈ SUPPORTED_FORMATS
  · simp only [normalizeFormat, if_pos h, Except.ok.injEq] at hf
    subst hf
    rcases (by simpa [SUPPORTED_FORMATS] using h :
        pyUpper tok = "PNG" ∨ pyUpper tok = "BMP" ∨ pyUpper tok = "JPEG" ∨
          pyUpper tok = "JPG") with h1 | h1 | h1 | h1 <;> simp [h1]
  · simp [normalizeFormat, if_neg h] at hf

/-- The format-set command followed by the validated format can never
collide with Method B's fixed command texts. -/
theorem fmt_cmd_ne (fmt : String) (h : fmt = "PNG" ∨ fmt = "BMP" ∨ fmt = "JPEG") :
    WireOp.write ("HCSU DEV,FORMAT," ++ fmt) ≠ WireOp.write "HCSU PRINT" ∧
    WireOp.write ("HCSU DEV,FORMAT," ++ fmt) ≠ WireOp.query "HCSU?" := by
  rcases h with rfl | rfl | rfl <;> exact ⟨by decide, by decide⟩

/-- Evaluation of Method A on a well-formed stream: a `'#'` byte, a digit
byte of value `N ≠ 0`, `N` digit bytes encoding `L`, then the remaining
delivered bytes `body`; the decoder reads `min L body.length` payload bytes
and succeeds exactly when that count is `L`. -/
theorem scdpRun_eval (dB N : Nat) (digits body : List Nat) (L : Nat)
    (hdB : digitVal? dB = some N) (hN : N ≠ 0)
    (hlen : digits.length = N) (hparse : pyInt? digits = some (L : Int)) :
    scdpRun (35 :: dB :: (digits ++ body)) =
      ((if (body.take L).length ≠ L then
          Except.error (PyExc.exception ("Data length mismatch: expected " ++
            toString L ++ ", got " ++ toString (body.take L).length))
        else Except.ok (body.take L)),
       [WireOp.write "SCDP", WireOp.readRaw 2, WireOp.readRaw (N : Int),
        WireOp.readRaw (L : Int)]) := by
  simp only [scdpRun, List.take_succ_cons, List.take_zero, List.drop_succ_cons,
    List.drop_zero]
  rw [hdB]
  simp only [if_neg hN]
  simp only [← hlen, List.take_left, List.drop_left, hparse]
  rw [if_neg (show ¬(([35] : List Nat) ≠ [35]) from by simp)]
  simp only [List.cons_append, List.nil_append, Int.toNat_natCast, ne_eq,
    Nat.cast_inj]
  split <;> rfl

/-! ## Claims -/

/-- C1 (amended). Method A on a stream `#`, nonzero digit-count byte, length
digits encoding `L`, then the delivered payload: when exactly `L` payload
bytes are delivered the decoder returns them unchanged; when the number of
payload bytes actually read differs from `L` it fails with the
length-mismatch error citing both counts. In particular the synthetic
response `b"#18" ++ b"image-bytes-here"` declares `L = 8`, so decoding it
yields exactly the first 8 payload bytes `b"image-by"`. -/
theorem c1_method_a_round_trip (dB N : Nat) (digits body : List Nat) (L : Nat)
    (hdB : digitVal? dB = some N) (hN : N ≠ 0)
    (hlen : digits.length = N) (hparse : pyInt? digits = some (L : Int)) :
    (body.length = L →
      (scdpRun (35 :: dB :: (digits ++ body))).1 = Except.ok body) ∧
    ((body.take L).length ≠ L →
      (scdpRun (35 :: dB :: (digits ++ body))).1 =
        Except.error (PyExc.exception ("Data length mismatch: expected " ++
          toString L ++ ", got " ++ toString (body.take L).length))) ∧
    (scdpRun (asciiBytes ("#18" ++ "image-bytes-here"))).1 =
      Except.ok (asciiBytes "image-by") := by
  refine ⟨?_, ?_, by decide⟩
  · intro hbl
    rw [scdpRun_eval dB N digits body L hdB hN hlen hparse]
    have ht : body.take L = body := hbl ▸ List.take_length body
    simp [ht, hbl]
  · intro hne
    rw [scdpRun_eval dB N digits body L hdB hN hlen hparse]
    simp only [if_pos hne]

/-- C1 witness: a concrete well-formed stream `#`, `1`, `8`,
8 payload bytes decodes to exactly those payload bytes. -/
theorem c1_witness :
    (scdpRun (35 :: 49 :: ([56] ++ asciiBytes "image-by"))).1 =
      Except.ok (asciiBytes "image-by") :=
  (c1_method_a_round_trip 49 1 [56] (asciiBytes "image-by") 8 (by decide)
    (by decide) (by decide) (by decide)).1 (by decide)

/-- C1 counterexample to the claim as stated: decoding
`b"#18" ++ b"image-bytes-here"` yields `b"image-by"`, which is not
`b"image-bytes-here"`. -/
theorem c1_counterexample :
    (scdpRun (asciiBytes ("#18" ++ "image-bytes-here"))).1 =
      Except.ok (asciiBytes "image-by") ∧
    Except.ok (asciiBytes "image-by") ≠
      (Except.ok (asciiBytes "image-bytes-here") :
        Except PyExc (List Nat)) := by
  exact ⟨by decide, by decide⟩

/-- C2. Method A fails with the `"Invalid response header"` error when the
first header byte read is missing or differs from `'#'` (byte 35), and with
the `"Invalid length format"` error when the digit-count byte is `'0'`
(byte 48, the only byte parsing to zero); each failure is an error outcome,
so no partial payload is returned. -/
theorem c2_header_validation (b : Nat) (s s' : List Nat) (hb : b ≠ 35) :
    (scdpRun []).1 = Except.error (PyExc.exception "Invalid response header") ∧
    (scdpRun (b :: s)).1 =
      Except.error (PyExc.exception "Invalid response header") ∧
    (scdpRun (35 :: 48 :: s')).1 =
      Except.error (PyExc.exception "Invalid length format") := by
  refine ⟨by decide, ?_, ?_⟩
  · simp [scdpRun, hb]
  · simp [scdpRun, digitVal?]

/-- C2 witness at the concrete bad header byte `'X'` (88). -/
theorem c2_witness :
    (scdpRun (asciiBytes "X18img")).1 =
      Except.error (PyExc.exception "Invalid response header") ∧
    (scdpRun (asciiBytes "#08img")).1 =
      Except.error (PyExc.exception "Invalid length format") := by
  have h := c2_header_validation 88 (asciiBytes "18img")
    (asciiBytes "8img") (by decide)
  exact ⟨h.2.1, h.2.2⟩

/-- C5. Method B turns every text-typed query response into the
`"Unexpected string response: <text>"` error — in no execution is a
text-typed response returned as image bytes — while a binary response is
returned unchanged. -/
theorem c5_text_response_is_error (s : String) (bs : List Nat) :
    (hcsuRun (QueryResp.text s)).1 =
      Except.error (PyExc.exception ("Unexpected string response: " ++ s)) ∧
    (∀ l : List Nat, (hcsuRun (QueryResp.text s)).1 ≠ Except.ok l) ∧
    (hcsuRun (QueryResp.binary bs)).1 = Except.ok bs := by
  exact ⟨rfl, fun l => by simp [hcsuRun], rfl⟩

/-- C6. Format normalization: whenever the upper-cased token lies in the
supported set it yields that token with `"JPG"` folded to `"JPEG"` — hence
always one of `PNG`, `BMP`, `JPEG` — and for every token outside the set it
fails with the unsupported-format `ValueError`. -/
theorem c6_format_normalization (tok : String) :
    (pyUpper tok ∈ SUPPORTED_FORMATS →
      normalizeFormat tok =
        Except.ok (if pyUpper tok = "JPG" then "JPEG" else pyUpper tok) ∧
      (if pyUpper tok = "JPG" then "JPEG" else pyUpper tok) ∈
        ["PNG", "BMP", "JPEG"]) ∧
    (pyUpper tok ∉ SUPPORTED_FORMATS →
      normalizeFormat tok = Except.error (PyExc.valueError
        ("Unsupported format: " ++ pyUpper tok ++
          ". Supported: PNG, BMP, JPEG, JPG"))) := by
  constructor
  · intro h
    refine ⟨by simp [normalizeFormat, h], ?_⟩
    rcases (by simpa [SUPPORTED_FORMATS] using h :
        pyUpper tok = "PNG" ∨ pyUpper tok = "BMP" ∨ pyUpper tok = "JPEG" ∨
          pyUpper tok = "JPG") with h1 | h1 | h1 | h1 <;> simp [h1]
  · intro h
    simp [normalizeFormat, h]

/-- C6 witness: `"jpg"` normalizes to `"JPEG"` and `"TIFF"` is rejected. -/
theorem c6_witness :
    normalizeFormat "jpg" = Except.ok "JPEG" ∧
    normalizeFormat "TIFF" = Except.error (PyExc.valueError
      "Unsupported format: TIFF. Supported: PNG, BMP, JPEG, JPG") := by
  constructor
  · exact (((c6_format_normalization "jpg").1 (by decide)).1).trans (by rfl)
  · exact ((c6_format_normalization "TIFF").2 (by decide)).trans (by rfl)

/-- C7. `save_screenshot` without an explicit format runs the capture with
the format inferred from the filename: extension `.png`/`.bmp`/`.jpg`/
`.jpeg`, upper-cased before lookup and hence matched case-insensitively,
maps to `PNG`/`BMP`/`JPEG`/`JPEG`, and every other or missing extension
defaults to `PNG`; in particular on the spec's five vectors. -/
theorem c7_save_screenshot_inference (t : Transport) (filename : String) :
    save_screenshot t filename none =
      capture_screenshot t (inferFormatFromFilename filename) ∧
    inferFormatFromFilename filename =
      (if pyUpper (splitextExt filename) = ".PNG" then "PNG"
       else if pyUpper (splitextExt filename) = ".BMP" then "BMP"
       else if pyUpper (splitextExt filename) = ".JPG" then "JPEG"
       else if pyUpper (splitextExt filename) = ".JPEG" then "JPEG"
       else "PNG") ∧
    inferFormatFromFilename "x.PNG" = "PNG" ∧
    inferFormatFromFilename "x.bmp" = "BMP" ∧
    inferFormatFromFilename "x.jpeg" = "JPEG" ∧
    inferFormatFromFilename "x.unknown" = "PNG" ∧
    inferFormatFromFilename "x" = "PNG" := by
  refine ⟨rfl, ?_, by decide, by decide, by decide, by decide, by decide⟩
  simp only [inferFormatFromFilename, format_map, List.find?]
  by_cases h1 : pyUpper (splitextExt filename) = ".PNG" <;>
    by_cases h2 : pyUpper (splitextExt filename) = ".BMP" <;>
    by_cases h3 : pyUpper (splitextExt filename) = ".JPG" <;>
    by_cases h4 : pyUpper (splitextExt filename) = ".JPEG" <;>
    simp_all
  rw [beq_eq_false_iff_ne.mpr (Ne.symm h1), beq_eq_false_iff_ne.mpr (Ne.symm h2),
    beq_eq_false_iff_ne.mpr (Ne.symm h3), beq_eq_false_iff_ne.mpr (Ne.symm h4)]

/-- C10. A format token outside the supported set is rejected — with the
unsupported-format `ValueError` — before any wire traffic: the operation
log of such a call is empty, so no instrument state is touched. -/
theorem c10_reject_before_wire (t : Transport) (tok : String)
    (h : pyUpper tok ∉ SUPPORTED_FORMATS) :
    capture_screenshot t tok =
      (Except.error (PyExc.valueError ("Unsupported format: " ++ pyUpper tok ++
        ". Supported: PNG, BMP, JPEG, JPG")), []) := by
  simp [capture_screenshot, normalizeFormat, h]

/-- Reduction of the orchestrator when Method A decodes a non-empty
payload: the capture returns at once. -/
theorem capture_of_scdp_ok (t : Transport) (tok fmt : String) (a : List Nat)
    (hf : normalizeFormat tok = Except.ok fmt)
    (ha : (scdpRun t.scdpStream).1 = Except.ok a) (hne : a ≠ []) :
    capture_screenshot t tok =
      (Except.ok (a, fmt),
       WireOp.write ("HCSU DEV,FORMAT," ++ fmt) :: (scdpRun t.scdpStream).2) := by
  simp only [capture_screenshot, hf, ha, List.singleton_append, if_pos hne]

/-- Reduction of the orchestrator when Method A raises or decodes an empty
payload: the capture runs the Method B fallback tail. -/
theorem capture_of_scdp_fail (t : Transport) (tok fmt : String)
    (hf : normalizeFormat tok = Except.ok fmt)
    (h : (∃ e, (scdpRun t.scdpStream).1 = Except.error e) ∨
      (scdpRun t.scdpStream).1 = Except.ok []) :
    capture_screenshot t tok =
      captureFallback fmt
        (WireOp.write ("HCSU DEV,FORMAT," ++ fmt) :: (scdpRun t.scdpStream).2)
        (hcsuRun t.hcsuResp).1 (hcsuRun t.hcsuResp).2 := by
  rcases h with ⟨e, ha⟩ | ha
  · simp only [capture_screenshot, hf, ha, List.singleton_append]
  · simp only [capture_screenshot, hf, ha, List.singleton_append, ne_eq,
      not_true_eq_false, if_false, ite_false]

/-- C3. Whenever Method A raises any exception, the orchestrator swallows it
and attempts Method B — its trigger and query appear on the wire — and if
Method B returns non-empty bytes the capture succeeds with exactly Method
B's payload (and the validated format). -/
theorem c3_fallback_on_method_a_failure (t : Transport) (tok fmt : String)
    (e : PyExc) (b : List Nat)
    (hf : normalizeFormat tok = Except.ok fmt)
    (ha : (scdpRun t.scdpStream).1 = Except.error e)
    (hb : (hcsuRun t.hcsuResp).1 = Except.ok b) (hne : b ≠ []) :
    (capture_screenshot t tok).1 = Except.ok (b, fmt) ∧
    WireOp.write "HCSU PRINT" ∈ (capture_screenshot t tok).2 ∧
    WireOp.query "HCSU?" ∈ (capture_screenshot t tok).2 := by
  have hcap := capture_of_scdp_fail t tok fmt hf (Or.inl ⟨e, ha⟩)
  rw [hcap]
  have hfb : captureFallback fmt
      (WireOp.write ("HCSU DEV,FORMAT," ++ fmt) :: (scdpRun t.scdpStream).2)
      (hcsuRun t.hcsuResp).1 (hcsuRun t.hcsuResp).2 =
      (Except.ok (b, fmt),
       (WireOp.write ("HCSU DEV,FORMAT," ++ fmt) :: (scdpRun t.scdpStream).2) ++
         (hcsuRun t.hcsuResp).2) := by
    simp only [captureFallback, hb, if_pos hne]
  rw [hfb, hcsuRun_log]
  refine ⟨rfl, ?_, ?_⟩ <;> simp

/-- C3 witness: a garbled Method A stream plus a non-empty binary Method B
response make the capture succeed with Method B's bytes. -/
theorem c3_witness :
    (capture_screenshot ⟨asciiBytes "bad", QueryResp.binary [66, 77]⟩ "PNG").1 =
      Except.ok ([66, 77], "PNG") := by
  have h := c3_fallback_on_method_a_failure
    ⟨asciiBytes "bad", QueryResp.binary [66, 77]⟩ "PNG" "PNG"
    (PyExc.exception "Invalid response header") [66, 77]
    (by decide) (by decide) (by decide) (by decide)
  exact h.1

/-- C4. Whenever Method A and Method B each either raise or yield an empty
payload, the capture raises the terminal `RuntimeError` — whose message
reports that every available method was exhausted, independent of which
errors occurred — and returns no byte sequence as success. -/
theorem c4_terminal_failure (t : Transport) (tok fmt : String)
    (hf : normalizeFormat tok = Except.ok fmt)
    (ha : ∀ a, (scdpRun t.scdpStream).1 = Except.ok a → a = [])
    (hb : ∀ b, (hcsuRun t.hcsuResp).1 = Except.ok b → b = []) :
    (capture_screenshot t tok).1 =
      Except.error (PyExc.runtimeError captureFailMsg) ∧
    ∀ p : List Nat × String, (capture_screenshot t tok).1 ≠ Except.ok p := by
  have hscdp : (∃ e, (scdpRun t.scdpStream).1 = Except.error e) ∨
      (scdpRun t.scdpStream).1 = Except.ok [] := by
    cases hx : (scdpRun t.scdpStream).1 with
    | error e => exact Or.inl ⟨e, rfl⟩
    | ok a => exact Or.inr ((ha a hx) ▸ rfl)
  have hcap := capture_of_scdp_fail t tok fmt hf hscdp
  have hres : (capture_screenshot t tok).1 =
      Except.error (PyExc.runtimeError captureFailMsg) := by
    rw [hcap]
    cases hx : (hcsuRun t.hcsuResp).1 with
    | error e => simp [captureFallback, hx]
    | ok b =>
      have hbe := hb b hx
      subst hbe
      simp [captureFallback, hx]
  exact ⟨hres, fun p hp => by rw [hres] at hp; exact Except.noConfusion hp⟩

/-- C4 witness: a garbled Method A stream and a text Method B response end
in the terminal failure. -/
theorem c4_witness :
    (capture_screenshot ⟨asciiBytes "bad", QueryResp.text "err"⟩ "PNG").1 =
      Except.error (PyExc.runtimeError captureFailMsg) := by
  have hA : (scdpRun (asciiBytes "bad")).1 =
      Except.error (PyExc.exception "Invalid response header") := by decide
  have hB : (hcsuRun (QueryResp.text "err")).1 =
      Except.error (PyExc.exception "Unexpected string response: err") := by
    decide
  have h := c4_terminal_failure ⟨asciiBytes "bad", QueryResp.text "err"⟩
    "PNG" "PNG" (by decide)
    (fun a hx => by
      have hx' : (scdpRun (asciiBytes "bad")).1 = Except.ok a := hx
      rw [hA] at hx'; cases hx')
    (fun b hx => by
      have hx' : (hcsuRun (QueryResp.text "err")).1 = Except.ok b := hx
      rw [hB] at hx'; cases hx')
  exact h.1

/-- C8. Whenever Method A decodes a non-empty payload, the capture returns
immediately with exactly that payload paired with the validated format, and
no Method B command — neither the `HCSU PRINT` trigger nor the `HCSU?`
query — is ever issued on the wire. -/
theorem c8_method_a_success_short_circuits (t : Transport) (tok fmt : String)
    (a : List Nat) (hf : normalizeFormat tok = Except.ok fmt)
    (ha : (scdpRun t.scdpStream).1 = Except.ok a) (hne : a ≠ []) :
    (capture_screenshot t tok).1 = Except.ok (a, fmt) ∧
    ∀ op ∈ (capture_screenshot t tok).2,
      op ≠ WireOp.write "HCSU PRINT" ∧ op ≠ WireOp.query "HCSU?" := by
  have hcap := capture_of_scdp_ok t tok fmt a hf ha hne
  rw [hcap]
  refine ⟨rfl, ?_⟩
  intro op hop
  rcases List.mem_cons.mp hop with rfl | hop
  · exact fmt_cmd_ne fmt (normalizeFormat_ok tok fmt hf)
  · exact scdpRun_no_hcsu t.scdpStream op hop

/-- C8 witness: a successful Method A stream short-circuits the capture —
including one whose length field `b"+5"` uses a sign that Python's `int`
accepts. -/
theorem c8_witness :
    (capture_screenshot ⟨asciiBytes "#2+5ABCDE", QueryResp.text "err"⟩
        "BMP").1 =
      Except.ok (asciiBytes "ABCDE", "BMP") := by
  have h := c8_method_a_success_short_circuits
    ⟨asciiBytes "#2+5ABCDE", QueryResp.text "err"⟩ "BMP" "BMP"
    (asciiBytes "ABCDE") (by decide) (by decide) (by decide)
  exact h.1

/-- C9. On every call whose format token validates, the command texts put on
the wire are exactly `HCSU DEV,FORMAT,<FORMAT>` with `<FORMAT>` one of
`PNG`, `BMP`, `JPEG` (never `JPG`), then Method A's `SCDP`, and — exactly
when the fallback runs — Method B's `HCSU PRINT` followed by the query
`HCSU?`, in that order and nothing else. -/
theorem c9_wire_commands (t : Transport) (tok fmt : String)
    (hf : normalizeFormat tok = Except.ok fmt) :
    (fmt = "PNG" ∨ fmt = "BMP" ∨ fmt = "JPEG") ∧
    ((capture_screenshot t tok).2.filter isCmd =
        [WireOp.write ("HCSU DEV,FORMAT," ++ fmt), WireOp.write "SCDP"] ∨
     (capture_screenshot t tok).2.filter isCmd =
        [WireOp.write ("HCSU DEV,FORMAT," ++ fmt), WireOp.write "SCDP",
         WireOp.write "HCSU PRINT", WireOp.query "HCSU?"]) := by
  refine ⟨normalizeFormat_ok tok fmt hf, ?_⟩
  by_cases hok : ∃ a, (scdpRun t.scdpStream).1 = Except.ok a ∧ a ≠ []
  · rcases hok with ⟨a, ha, hne⟩
    left
    rw [capture_of_scdp_ok t tok fmt a hf ha hne]
    simp only [List.filter_cons, isCmd, List.cons.injEq, if_pos rfl]
    simp [scdpRun_filter_isCmd]
  · have hfail : (∃ e, (scdpRun t.scdpStream).1 = Except.error e) ∨
        (scdpRun t.scdpStream).1 = Except.ok [] := by
      cases hx : (scdpRun t.scdpStream).1 with
      | error e => exact Or.inl ⟨e, rfl⟩
      | ok a =>
        refine Or.inr ?_
        by_cases hae : a = []
        · rw [hae]
        · exact absurd ⟨a, hx, hae⟩ hok
    right
    rw [capture_of_scdp_fail t tok fmt hf hfail, captureFallback_log,
      hcsuRun_log]
    simp [List.filter_append, scdpRun_filter_isCmd, isCmd]

/-- C9 witness: on a fallback run the filtered wire log is exactly the four
commands in order. -/
theorem c9_witness :
    (capture_screenshot ⟨asciiBytes "bad", QueryResp.binary [1]⟩ "jpg").2.filter
        isCmd =
      [WireOp.write "HCSU DEV,FORMAT,JPEG", WireOp.write "SCDP",
       WireOp.write "HCSU PRINT", WireOp.query "HCSU?"] := by
  have h := c9_wire_commands ⟨asciiBytes "bad", QueryResp.binary [1]⟩ "jpg"
    "JPEG" (by decide)
  rcases h.2 with h2 | h2
  · exact absurd h2 (by decide)
  · exact h2.trans (by rfl)

/-- C10 witness: requesting `"TIFF"` fails with an empty wire log. -/
theorem c10_witness :
    capture_screenshot ⟨[], QueryResp.binary []⟩ "TIFF" =
      (Except.error (PyExc.valueError
        "Unsupported format: TIFF. Supported: PNG, BMP, JPEG, JPG"), []) :=
  (c10_reject_before_wire ⟨[], QueryResp.binary []⟩ "TIFF" (by decide)).trans
    (by rfl)

end SiglentCapture
